import Mathlib

/-!
# Verification of `cli/cluster/cmd/publish.go`

A shallow embedding of the publication orchestrator of `tt cluster publish`:
`PublishEtcd`, `PublishCluster`, `publishCtxValidateConfig` and
`replaceInstanceConfig`.

The orchestrator is glue code around collaborators that live in other
packages (`ParseUriOpts`, `cluster.ConnectEtcd`, the collectors and
publishers, `cluster.MakeClusterConfig`, ...).  Their behaviour is taken as a
parameter (`Collaborators`); the I/O they perform acts on an abstract world
state `W` that is threaded through every call.  Every collaborator call the
orchestrator makes is recorded, in order, as an `Event` in a log, so that
statements such as "no publish call is made" or "collect precedes publish"
are statements about the log.
-/

namespace Publish

/-! ## Errors -/

/-- A Go `error` value: either an error created by a collaborator (`new`), or
an error built by `fmt.Errorf` with a `%w` verb (`wrap`), which has a message
of its own and the wrapped error as its cause. -/
inductive GoError where
  | new (msg : String)
  | wrap (msg : String) (cause : GoError)
deriving DecidableEq, Repr

/-- The `Error()` method: the message of the error. -/
def GoError.Error : GoError → String
  | .new msg => msg
  | .wrap msg _ => msg

/-- The `errors.Unwrap` function: the error wrapped by `%w`, if any. -/
def GoError.Unwrap : GoError → Option GoError
  | .new _ => none
  | .wrap _ cause => some cause

/-- The call `fmt.Errorf(format ++ "%w", ..., err)`, where `text` is the
rendering of everything that precedes the `%w` verb: the message is `text`
followed by the message of `err`, and `err` is the wrapped cause. -/
def Errorf (text : String) (err : GoError) : GoError :=
  .wrap (text ++ err.Error) err

/-! ## Data -/

/-- A Go `[]byte`. -/
abbrev Bytes := List UInt8

/-- The fields of `UriOpts` that `publish.go` reads; `other` stands for the
remaining fields of the structure (endpoint, TLS options, ...). -/
structure UriOpts (UX : Type) where
  Prefix : String
  Key : String
  Instance : String
  other : UX
deriving DecidableEq, Repr

/-- The fields of `cluster.EtcdOpts` that `publish.go` reads or writes;
`other` stands for the remaining fields of the structure. -/
structure EtcdOpts (EX : Type) where
  Username : String
  Password : String
  Timeout : Int
  other : EX
deriving DecidableEq, Repr

/-- The `PublishCtx` structure. `Config` is a pointer in the source, so it may
be absent (`nil`). -/
structure PublishCtx (Config : Type) where
  Username : String
  Password : String
  Force : Bool
  Src : Bytes
  Config : Option Config
deriving DecidableEq, Repr

/-- The values of type `cluster.DataPublisher` that `publish.go` constructs,
named after their constructors `cluster.NewEtcdAllDataPublisher`,
`cluster.NewEtcdKeyDataPublisher` and `cluster.NewFileDataPublisher`. -/
inductive DataPublisher (Client : Type) where
  | NewEtcdAllDataPublisher (etcdcli : Client) (pfx : String) (timeout : Int)
  | NewEtcdKeyDataPublisher (etcdcli : Client) (pfx : String) (key : String)
      (timeout : Int)
  | NewFileDataPublisher (path : String)
deriving DecidableEq, Repr

/-- The values of type `cluster.Collector` that `publish.go` constructs, named
after their constructors `cluster.NewEtcdAllCollector` and
`cluster.NewFileCollector`. -/
inductive Collector (Client : Type) where
  | NewEtcdAllCollector (etcdcli : Client) (pfx : String) (timeout : Int)
  | NewFileCollector (path : String)
deriving DecidableEq, Repr

/-! ## Collaborators and the call log -/

/-- One call made by the orchestrator to a collaborator, with its arguments.
The constructors are named after the function or method that is called;
`Serialize` and `Publish` are the two steps of the YAML decorator publisher
and of the raw publishers. -/
inductive Event (Uri Config CConfig Client EX : Type) where
  | ParseUriOpts (uri : Uri)
  | validateRawConfig (config : Option Config) (inst : String)
  | ConnectEtcd (etcdOpts : EtcdOpts EX)
  | Close (etcdcli : Client)
  | Collect (collector : Collector Client)
  | MakeClusterConfig (src : Bytes)
  | ReplaceInstanceConfig (cconfig : CConfig) (inst : String)
      (config : Option Config)
  | Serialize (config : Option Config)
  | Publish (publisher : DataPublisher Client) (data : Bytes)
deriving DecidableEq, Repr

/-- The collaborators of `publish.go`, none of which is defined in that file.
`W` is the state of the outside world (the etcd cluster, the file system);
the collaborators that perform I/O (connect, close, collect, publish) take
the world and return the new one, while the locator parser, the validator,
the document parser and the merge engine are functions of their arguments.
`quote` is `strconv.Quote`, which renders the `%q` verb, and `uriString` is
the `String` method of `*url.URL`. `RawConfig` is the field of that name of
`cluster.ClusterConfig`, and `Serialize` is the serialization of a
configuration to a raw document. -/
structure Collaborators (Uri Config CConfig Client W UX EX : Type) where
  ParseUriOpts : Uri → Except GoError (UriOpts UX)
  MakeEtcdOptsFromUriOpts : UriOpts UX → EtcdOpts EX
  validateRawConfig : Option Config → String → Option GoError
  ConnectEtcd : EtcdOpts EX → W → Except GoError Client × W
  Close : Client → W → W
  Collect : Collector Client → W → Except GoError Bytes × W
  Publish : DataPublisher Client → Bytes → W → Option GoError × W
  MakeClusterConfig : Bytes → Except GoError CConfig
  ReplaceInstanceConfig :
    CConfig → String → Option Config → Except GoError CConfig
  RawConfig : CConfig → Option Config
  Serialize : Option Config → Bytes
  quote : String → String
  uriString : Uri → String

/-- What a run of an orchestrator function leaves behind: the returned
`error` (`none` is `nil`), the world after the run, and the collaborator calls
the run made, in order. -/
structure Outcome (W Ev : Type) where
  err : Option GoError
  world : W
  calls : List Ev
deriving DecidableEq, Repr

section Orchestrator

variable {Uri Config CConfig Client W UX EX : Type}

/-- The method `Publish` of a raw `cluster.DataPublisher`: one call to the
collaborator, whose result is returned. -/
def DataPublisher.Publish
    (E : Collaborators Uri Config CConfig Client W UX EX)
    (publisher : DataPublisher Client) (data : Bytes) (w : W) :
    Outcome W (Event Uri Config CConfig Client EX) :=
  { err := (E.Publish publisher data w).1
    world := (E.Publish publisher data w).2
    calls := [.Publish publisher data] }

/-- Modelled from the spec: the method `Publish` of the decorator built by
`cluster.NewYamlConfigPublisher`, which is not defined in `publish.go`. The
spec describes it as "a decorator publisher [that] accepts a structured
document, serializes it, and forwards to an underlying raw publisher". -/
def YamlConfigPublisher.Publish
    (E : Collaborators Uri Config CConfig Client W UX EX)
    (publisher : DataPublisher Client) (config : Option Config) (w : W) :
    Outcome W (Event Uri Config CConfig Client EX) :=
  let r := publisher.Publish E (E.Serialize config) w
  { err := r.err
    world := r.world
    calls := .Serialize config :: r.calls }

/-- The function `publishCtxValidateConfig`. -/
def publishCtxValidateConfig
    (E : Collaborators Uri Config CConfig Client W UX EX)
    (publishCtx : PublishCtx Config) (inst : String) (w : W) :
    Outcome W (Event Uri Config CConfig Client EX) :=
  if !publishCtx.Force then
    { err := E.validateRawConfig publishCtx.Config inst
      world := w
      calls := [.validateRawConfig publishCtx.Config inst] }
  else
    { err := none, world := w, calls := [] }

/-- The function `replaceInstanceConfig`. -/
def replaceInstanceConfig
    (E : Collaborators Uri Config CConfig Client W UX EX)
    (inst : String) (config : Option Config)
    (collector : Collector Client) (publisher : DataPublisher Client)
    (w : W) : Outcome W (Event Uri Config CConfig Client EX) :=
  match E.Collect collector w with
  | (.error err, w1) =>
    { err := some (Errorf
        ("failed to get a cluster configuration to update an instance "
          ++ E.quote inst ++ ": ") err)
      world := w1
      calls := [.Collect collector] }
  | (.ok src, w1) =>
    match E.MakeClusterConfig src with
    | .error err =>
      { err := some (Errorf "failed to parse a target configuration: " err)
        world := w1
        calls := [.Collect collector, .MakeClusterConfig src] }
    | .ok cconfig =>
      match E.ReplaceInstanceConfig cconfig inst config with
      | .error err =>
        { err := some (Errorf
            ("failed to replace an instance " ++ E.quote inst
              ++ " configuration in a cluster configuration: ") err)
          world := w1
          calls := [.Collect collector, .MakeClusterConfig src,
            .ReplaceInstanceConfig cconfig inst config] }
      | .ok cconfig2 =>
        let r := YamlConfigPublisher.Publish E publisher
          (E.RawConfig cconfig2) w1
        { err := r.err
          world := r.world
          calls := [.Collect collector, .MakeClusterConfig src,
            .ReplaceInstanceConfig cconfig inst config] ++ r.calls }

/-- The options `PublishEtcd` connects with: those made from the locator,
with the credentials of the publish context when the locator has neither a
username nor a password (lines 33 to 37 of `publish.go`). -/
def etcdOptsOf
    (E : Collaborators Uri Config CConfig Client W UX EX)
    (publishCtx : PublishCtx Config) (uriOpts : UriOpts UX) : EtcdOpts EX :=
  let etcdOpts := E.MakeEtcdOptsFromUriOpts uriOpts
  if etcdOpts.Username = "" ∧ etcdOpts.Password = "" then
    { etcdOpts with
      Username := publishCtx.Username
      Password := publishCtx.Password }
  else
    etcdOpts

/-- The publisher `PublishEtcd` selects (lines 52 to 57 of `publish.go`). -/
def etcdPublisherOf (etcdcli : Client) (pfx key : String) (timeout : Int) :
    DataPublisher Client :=
  if key = "" then
    .NewEtcdAllDataPublisher etcdcli pfx timeout
  else
    .NewEtcdKeyDataPublisher etcdcli pfx key timeout

/-- The function `PublishEtcd`. The deferred `etcdcli.Close()` runs last on
every path that follows a successful connect. -/
def PublishEtcd
    (E : Collaborators Uri Config CConfig Client W UX EX)
    (publishCtx : PublishCtx Config) (uri : Uri) (w : W) :
    Outcome W (Event Uri Config CConfig Client EX) :=
  match E.ParseUriOpts uri with
  | .error err =>
    { err := some (Errorf
        ("invalid URL " ++ E.quote (E.uriString uri) ++ ": ") err)
      world := w
      calls := [.ParseUriOpts uri] }
  | .ok uriOpts =>
    let etcdOpts := etcdOptsOf E publishCtx uriOpts
    let inst := uriOpts.Instance
    let v := publishCtxValidateConfig E publishCtx inst w
    match v.err with
    | some err =>
      { err := some err
        world := v.world
        calls := .ParseUriOpts uri :: v.calls }
    | none =>
      match E.ConnectEtcd etcdOpts v.world with
      | (.error err, w1) =>
        { err := some (Errorf "failed to connect to etcd: " err)
          world := w1
          calls := .ParseUriOpts uri :: v.calls ++ [.ConnectEtcd etcdOpts] }
      | (.ok etcdcli, w1) =>
        let publisher :=
          etcdPublisherOf etcdcli uriOpts.Prefix uriOpts.Key etcdOpts.Timeout
        let r :=
          if inst = "" then
            publisher.Publish E publishCtx.Src w1
          else
            replaceInstanceConfig E inst publishCtx.Config
              (.NewEtcdAllCollector etcdcli uriOpts.Prefix etcdOpts.Timeout)
              publisher w1
        { err := r.err
          world := E.Close etcdcli r.world
          calls := .ParseUriOpts uri :: v.calls ++ [.ConnectEtcd etcdOpts]
            ++ r.calls ++ [.Close etcdcli] }

/-- The function `PublishCluster`. -/
def PublishCluster
    (E : Collaborators Uri Config CConfig Client W UX EX)
    (publishCtx : PublishCtx Config) (path inst : String) (w : W) :
    Outcome W (Event Uri Config CConfig Client EX) :=
  let v := publishCtxValidateConfig E publishCtx inst w
  match v.err with
  | some err => { err := some err, world := v.world, calls := v.calls }
  | none =>
    let publisher : DataPublisher Client := .NewFileDataPublisher path
    let r :=
      if inst = "" then
        publisher.Publish E publishCtx.Src v.world
      else
        replaceInstanceConfig E inst publishCtx.Config
          (.NewFileCollector path) publisher v.world
    { err := r.err, world := r.world, calls := v.calls ++ r.calls }

/-- The calls made by the validation gate: one call to the validator, unless
the publish is forced. -/
def gateCalls (publishCtx : PublishCtx Config) (inst : String) :
    List (Event Uri Config CConfig Client EX) :=
  if publishCtx.Force then [] else [.validateRawConfig publishCtx.Config inst]

end Orchestrator

/-! ## A concrete set of collaborators

A small, fully computable instance of `Collaborators`, used to run the
orchestrator on concrete requests. The world is the stored document; a
cluster configuration and an instance configuration are both raw byte lists,
and the cluster has a single instance `"a"`, whose configuration is the first
byte of the document. -/

/-- A locator of the concrete collaborators: either malformed, or the options
it resolves to. -/
structure DemoUri where
  wellFormed : Bool
  pfx : String
  key : String
  name : String
  user : String
  password : String
deriving DecidableEq, Repr

/-- The concrete collaborators. -/
def demo :
    Collaborators DemoUri Bytes Bytes Nat Bytes (String × String) Unit where
  ParseUriOpts := fun u =>
    if u.wellFormed then
      .ok { Prefix := u.pfx, Key := u.key, Instance := u.name,
            other := (u.user, u.password) }
    else
      .error (.new "URL must contain the scheme and the host parts")
  MakeEtcdOptsFromUriOpts := fun o =>
    { Username := o.other.1, Password := o.other.2, Timeout := 3, other := () }
  validateRawConfig := fun config _ =>
    match config with
    | some (_ :: _) => none
    | _ => some (.new "invalid configuration")
  ConnectEtcd := fun o w =>
    if o.Username = "" then (.error (.new "authentication failed"), w)
    else (.ok 7, w)
  Close := fun _ w => w
  Collect := fun _ w =>
    if w = [] then (.error (.new "not found"), w) else (.ok w, w)
  Publish := fun _ data w =>
    if data = [] then (some (.new "nothing to publish"), w) else (none, data)
  MakeClusterConfig := fun src =>
    if src.head? = some 0 then .error (.new "malformed document") else .ok src
  ReplaceInstanceConfig := fun cconfig inst config =>
    if inst = "a" then .ok (config.getD [] ++ cconfig.drop 1)
    else .error (.new "cluster configuration has not an instance")
  RawConfig := fun cconfig => some cconfig
  Serialize := fun config => config.getD []
  quote := fun s => "\"" ++ s ++ "\""
  uriString := fun u => u.pfx

/-- A well-formed locator of the concrete collaborators, with credentials. -/
def demoUri (key name : String) : DemoUri :=
  { wellFormed := true, pfx := "/tt", key := key, name := name,
    user := "root", password := "secret" }

/-- A publish context of the concrete collaborators. -/
def demoCtx (force : Bool) (src : Bytes) (config : Option Bytes) :
    PublishCtx Bytes :=
  { Username := "guest", Password := "guest", Force := force, Src := src,
    Config := config }

/-! ## Lemmas on the orchestrator functions -/

section Lemmas

variable {Uri Config CConfig Client W UX EX : Type}
variable (E : Collaborators Uri Config CConfig Client W UX EX)

/-- The gate of a forced publish calls nothing and returns no error. -/
theorem gate_of_forced (publishCtx : PublishCtx Config) (inst : String) (w : W)
    (hF : publishCtx.Force = true) :
    publishCtxValidateConfig E publishCtx inst w
      = { err := none, world := w, calls := [] } := by
  simp [publishCtxValidateConfig, hF]

/-- The gate of an unforced publish calls the validator once and returns its
result. -/
theorem gate_of_unforced (publishCtx : PublishCtx Config) (inst : String)
    (w : W) (hF : publishCtx.Force = false) :
    publishCtxValidateConfig E publishCtx inst w
      = { err := E.validateRawConfig publishCtx.Config inst
          world := w
          calls := [.validateRawConfig publishCtx.Config inst] } := by
  simp [publishCtxValidateConfig, hF]

/-- The gate never changes the world. -/
theorem gate_world (publishCtx : PublishCtx Config) (inst : String) (w : W) :
    (publishCtxValidateConfig E publishCtx inst w).world = w := by
  unfold publishCtxValidateConfig
  split <;> rfl

/-- The calls of the gate are `gateCalls`. -/
theorem gate_calls (publishCtx : PublishCtx Config) (inst : String) (w : W) :
    (publishCtxValidateConfig E publishCtx inst w).calls
      = gateCalls publishCtx inst := by
  unfold publishCtxValidateConfig gateCalls
  cases publishCtx.Force <;> simp

/-- The error of the gate: none when forced, the result of the validator
otherwise. -/
theorem gate_err (publishCtx : PublishCtx Config) (inst : String) (w : W) :
    (publishCtxValidateConfig E publishCtx inst w).err
      = if publishCtx.Force then none
        else E.validateRawConfig publishCtx.Config inst := by
  unfold publishCtxValidateConfig
  cases publishCtx.Force <;> simp

/-- `PublishCluster` when the gate fails. -/
theorem PublishCluster_of_gate_error (publishCtx : PublishCtx Config)
    (path inst : String) (w : W) (err : GoError)
    (hv : (publishCtxValidateConfig E publishCtx inst w).err = some err) :
    PublishCluster E publishCtx path inst w
      = { err := some err, world := w, calls := gateCalls publishCtx inst } := by
  simp [PublishCluster, hv, gate_world, gate_calls]

/-- `PublishCluster` when the gate passes and no instance is named. -/
theorem PublishCluster_of_no_instance (publishCtx : PublishCtx Config)
    (path : String) (w : W)
    (hv : (publishCtxValidateConfig E publishCtx "" w).err = none) :
    PublishCluster E publishCtx path "" w
      = { err := (E.Publish (.NewFileDataPublisher path) publishCtx.Src w).1
          world := (E.Publish (.NewFileDataPublisher path) publishCtx.Src w).2
          calls := gateCalls publishCtx ""
            ++ [.Publish (.NewFileDataPublisher path) publishCtx.Src] } := by
  simp [PublishCluster, hv, gate_world, gate_calls, DataPublisher.Publish]

/-- `PublishCluster` when the gate passes and an instance is named. -/
theorem PublishCluster_of_instance (publishCtx : PublishCtx Config)
    (path inst : String) (w : W) (hi : inst ≠ "")
    (hv : (publishCtxValidateConfig E publishCtx inst w).err = none) :
    PublishCluster E publishCtx path inst w
      = { err := (replaceInstanceConfig E inst publishCtx.Config
            (.NewFileCollector path) (.NewFileDataPublisher path) w).err
          world := (replaceInstanceConfig E inst publishCtx.Config
            (.NewFileCollector path) (.NewFileDataPublisher path) w).world
          calls := gateCalls publishCtx inst
            ++ (replaceInstanceConfig E inst publishCtx.Config
              (.NewFileCollector path) (.NewFileDataPublisher path) w).calls } := by
  simp [PublishCluster, hv, gate_world, gate_calls, hi]

/-- `PublishEtcd` when the locator does not parse. -/
theorem PublishEtcd_of_parse_error (publishCtx : PublishCtx Config) (uri : Uri)
    (w : W) (err : GoError) (hp : E.ParseUriOpts uri = .error err) :
    PublishEtcd E publishCtx uri w
      = { err := some (Errorf
            ("invalid URL " ++ E.quote (E.uriString uri) ++ ": ") err)
          world := w
          calls := [.ParseUriOpts uri] } := by
  simp [PublishEtcd, hp]

/-- `PublishEtcd` when the gate fails. -/
theorem PublishEtcd_of_gate_error (publishCtx : PublishCtx Config) (uri : Uri)
    (uriOpts : UriOpts UX) (w : W) (err : GoError)
    (hp : E.ParseUriOpts uri = .ok uriOpts)
    (hv : (publishCtxValidateConfig E publishCtx uriOpts.Instance w).err
      = some err) :
    PublishEtcd E publishCtx uri w
      = { err := some err
          world := w
          calls := .ParseUriOpts uri
            :: gateCalls publishCtx uriOpts.Instance } := by
  simp [PublishEtcd, hp, hv, gate_world, gate_calls]

/-- `PublishEtcd` when the connection fails. -/
theorem PublishEtcd_of_connect_error (publishCtx : PublishCtx Config)
    (uri : Uri) (uriOpts : UriOpts UX) (w w1 : W) (err : GoError)
    (hp : E.ParseUriOpts uri = .ok uriOpts)
    (hv : (publishCtxValidateConfig E publishCtx uriOpts.Instance w).err = none)
    (hc : E.ConnectEtcd (etcdOptsOf E publishCtx uriOpts) w = (.error err, w1)) :
    PublishEtcd E publishCtx uri w
      = { err := some (Errorf "failed to connect to etcd: " err)
          world := w1
          calls := .ParseUriOpts uri :: gateCalls publishCtx uriOpts.Instance
            ++ [.ConnectEtcd (etcdOptsOf E publishCtx uriOpts)] } := by
  simp [PublishEtcd, hp, hv, gate_world, gate_calls, hc]

/-- `PublishEtcd` when the connection succeeds and no instance is named. -/
theorem PublishEtcd_of_no_instance (publishCtx : PublishCtx Config)
    (uri : Uri) (uriOpts : UriOpts UX) (etcdcli : Client) (w w1 : W)
    (hp : E.ParseUriOpts uri = .ok uriOpts)
    (hi : uriOpts.Instance = "")
    (hv : (publishCtxValidateConfig E publishCtx uriOpts.Instance w).err = none)
    (hc : E.ConnectEtcd (etcdOptsOf E publishCtx uriOpts) w = (.ok etcdcli, w1)) :
    PublishEtcd E publishCtx uri w
      = { err := (E.Publish (etcdPublisherOf etcdcli uriOpts.Prefix uriOpts.Key
            (etcdOptsOf E publishCtx uriOpts).Timeout) publishCtx.Src w1).1
          world := E.Close etcdcli
            (E.Publish (etcdPublisherOf etcdcli uriOpts.Prefix uriOpts.Key
              (etcdOptsOf E publishCtx uriOpts).Timeout) publishCtx.Src w1).2
          calls := .ParseUriOpts uri :: gateCalls publishCtx uriOpts.Instance
            ++ [.ConnectEtcd (etcdOptsOf E publishCtx uriOpts),
              .Publish (etcdPublisherOf etcdcli uriOpts.Prefix uriOpts.Key
                (etcdOptsOf E publishCtx uriOpts).Timeout) publishCtx.Src,
              .Close etcdcli] } := by
  have hv2 := hv
  rw [hi] at hv2
  simp [PublishEtcd, hp, hv2, gate_world, gate_calls, hc, hi,
    DataPublisher.Publish]

/-- `PublishEtcd` when the connection succeeds and an instance is named. -/
theorem PublishEtcd_of_instance (publishCtx : PublishCtx Config)
    (uri : Uri) (uriOpts : UriOpts UX) (etcdcli : Client) (w w1 : W)
    (hp : E.ParseUriOpts uri = .ok uriOpts)
    (hi : uriOpts.Instance ≠ "")
    (hv : (publishCtxValidateConfig E publishCtx uriOpts.Instance w).err = none)
    (hc : E.ConnectEtcd (etcdOptsOf E publishCtx uriOpts) w = (.ok etcdcli, w1)) :
    PublishEtcd E publishCtx uri w
      = { err := (replaceInstanceConfig E uriOpts.Instance publishCtx.Config
            (.NewEtcdAllCollector etcdcli uriOpts.Prefix
              (etcdOptsOf E publishCtx uriOpts).Timeout)
            (etcdPublisherOf etcdcli uriOpts.Prefix uriOpts.Key
              (etcdOptsOf E publishCtx uriOpts).Timeout) w1).err
          world := E.Close etcdcli
            (replaceInstanceConfig E uriOpts.Instance publishCtx.Config
              (.NewEtcdAllCollector etcdcli uriOpts.Prefix
                (etcdOptsOf E publishCtx uriOpts).Timeout)
              (etcdPublisherOf etcdcli uriOpts.Prefix uriOpts.Key
                (etcdOptsOf E publishCtx uriOpts).Timeout) w1).world
          calls := .ParseUriOpts uri :: gateCalls publishCtx uriOpts.Instance
            ++ [.ConnectEtcd (etcdOptsOf E publishCtx uriOpts)]
            ++ (replaceInstanceConfig E uriOpts.Instance publishCtx.Config
              (.NewEtcdAllCollector etcdcli uriOpts.Prefix
                (etcdOptsOf E publishCtx uriOpts).Timeout)
              (etcdPublisherOf etcdcli uriOpts.Prefix uriOpts.Key
                (etcdOptsOf E publishCtx uriOpts).Timeout) w1).calls
            ++ [.Close etcdcli] } := by
  simp [PublishEtcd, hp, hv, gate_world, gate_calls, hc, hi]

/-- `replaceInstanceConfig` when the collect fails. -/
theorem replaceInstanceConfig_of_collect_error (inst : String)
    (config : Option Config) (collector : Collector Client)
    (publisher : DataPublisher Client) (w w1 : W) (err : GoError)
    (hc : E.Collect collector w = (.error err, w1)) :
    replaceInstanceConfig E inst config collector publisher w
      = { err := some (Errorf
            ("failed to get a cluster configuration to update an instance "
              ++ E.quote inst ++ ": ") err)
          world := w1
          calls := [.Collect collector] } := by
  simp [replaceInstanceConfig, hc]

/-- `replaceInstanceConfig` when the parse of the collected document fails. -/
theorem replaceInstanceConfig_of_parse_error (inst : String)
    (config : Option Config) (collector : Collector Client)
    (publisher : DataPublisher Client) (w w1 : W) (src : Bytes)
    (err : GoError)
    (hc : E.Collect collector w = (.ok src, w1))
    (hp : E.MakeClusterConfig src = .error err) :
    replaceInstanceConfig E inst config collector publisher w
      = { err := some (Errorf "failed to parse a target configuration: " err)
          world := w1
          calls := [.Collect collector, .MakeClusterConfig src] } := by
  simp [replaceInstanceConfig, hc, hp]

/-- `replaceInstanceConfig` when the merge fails. -/
theorem replaceInstanceConfig_of_merge_error (inst : String)
    (config : Option Config) (collector : Collector Client)
    (publisher : DataPublisher Client) (w w1 : W) (src : Bytes)
    (cconfig : CConfig) (err : GoError)
    (hc : E.Collect collector w = (.ok src, w1))
    (hp : E.MakeClusterConfig src = .ok cconfig)
    (hm : E.ReplaceInstanceConfig cconfig inst config = .error err) :
    replaceInstanceConfig E inst config collector publisher w
      = { err := some (Errorf
            ("failed to replace an instance " ++ E.quote inst
              ++ " configuration in a cluster configuration: ") err)
          world := w1
          calls := [.Collect collector, .MakeClusterConfig src,
            .ReplaceInstanceConfig cconfig inst config] } := by
  simp [replaceInstanceConfig, hc, hp, hm]

/-- `replaceInstanceConfig` when collect, parse and merge succeed. -/
theorem replaceInstanceConfig_of_merged (inst : String)
    (config : Option Config) (collector : Collector Client)
    (publisher : DataPublisher Client) (w w1 : W) (src : Bytes)
    (cconfig cconfig2 : CConfig)
    (hc : E.Collect collector w = (.ok src, w1))
    (hp : E.MakeClusterConfig src = .ok cconfig)
    (hm : E.ReplaceInstanceConfig cconfig inst config = .ok cconfig2) :
    replaceInstanceConfig E inst config collector publisher w
      = { err := (E.Publish publisher
            (E.Serialize (E.RawConfig cconfig2)) w1).1
          world := (E.Publish publisher
            (E.Serialize (E.RawConfig cconfig2)) w1).2
          calls := [.Collect collector, .MakeClusterConfig src,
            .ReplaceInstanceConfig cconfig inst config,
            .Serialize (E.RawConfig cconfig2),
            .Publish publisher (E.Serialize (E.RawConfig cconfig2))] } := by
  simp [replaceInstanceConfig, hc, hp, hm, YamlConfigPublisher.Publish,
    DataPublisher.Publish]

end Lemmas

/-! ## The claims -/

section Claims

variable {Uri Config CConfig Client W UX EX : Type}

/-- C1: overwrite publish is a pure passthrough. For a request with an empty
instance name that passes the validation gate, `PublishCluster` makes, after
the calls of the gate, exactly one call, `Publish` of the file publisher of
the path with `publishCtx.Src`, and returns its result. `PublishEtcd` (when the
locator parses and the connect succeeds) makes exactly one `Publish` call,
with `publishCtx.Src`, on the whole-partition publisher of the prefix when the
key is empty and on the single-item publisher of the prefix and key otherwise,
and returns its result. No collector is called in either function. -/
theorem overwrite_publish_is_passthrough
    (E : Collaborators Uri Config CConfig Client W UX EX)
    (publishCtx : PublishCtx Config) :
    (∀ (path : String) (w : W),
      (publishCtxValidateConfig E publishCtx "" w).err = none →
      PublishCluster E publishCtx path "" w
        = { err := (E.Publish (.NewFileDataPublisher path) publishCtx.Src w).1
            world := (E.Publish (.NewFileDataPublisher path) publishCtx.Src w).2
            calls := gateCalls publishCtx ""
              ++ [.Publish (.NewFileDataPublisher path) publishCtx.Src] })
    ∧ (∀ (uri : Uri) (uriOpts : UriOpts UX) (etcdcli : Client) (w w1 : W)
        (publisher : DataPublisher Client),
      E.ParseUriOpts uri = .ok uriOpts →
      uriOpts.Instance = "" →
      (publishCtxValidateConfig E publishCtx "" w).err = none →
      E.ConnectEtcd (etcdOptsOf E publishCtx uriOpts) w = (.ok etcdcli, w1) →
      publisher = (if uriOpts.Key = "" then
          DataPublisher.NewEtcdAllDataPublisher etcdcli uriOpts.Prefix
            (etcdOptsOf E publishCtx uriOpts).Timeout
        else
          DataPublisher.NewEtcdKeyDataPublisher etcdcli uriOpts.Prefix
            uriOpts.Key (etcdOptsOf E publishCtx uriOpts).Timeout) →
      PublishEtcd E publishCtx uri w
        = { err := (E.Publish publisher publishCtx.Src w1).1
            world := E.Close etcdcli (E.Publish publisher publishCtx.Src w1).2
            calls := .ParseUriOpts uri :: gateCalls publishCtx ""
              ++ [.ConnectEtcd (etcdOptsOf E publishCtx uriOpts),
                .Publish publisher publishCtx.Src, .Close etcdcli] }) := by
  refine ⟨fun path w hv => PublishCluster_of_no_instance E publishCtx path w hv,
    ?_⟩
  intro uri uriOpts etcdcli w w1 publisher hp hi hv hc hpub
  have hv2 : (publishCtxValidateConfig E publishCtx uriOpts.Instance w).err
      = none := by rw [hi]; exact hv
  rw [PublishEtcd_of_no_instance E publishCtx uri uriOpts etcdcli w w1 hp hi
    hv2 hc, hi, hpub]
  rfl

/-- A run of C1 on the concrete collaborators: an unforced overwrite publish
of `[9, 9]` to a file and to the key `"k"` of etcd. -/
theorem overwrite_publish_is_passthrough_witness :
    (publishCtxValidateConfig demo (demoCtx false [9, 9] (some [4])) ""
        ([1, 2] : Bytes)).err = none
    ∧ PublishCluster demo (demoCtx false [9, 9] (some [4])) "cfg.yaml" "" [1, 2]
      = { err := none
          world := [9, 9]
          calls := [.validateRawConfig (some [4]) "",
            .Publish (.NewFileDataPublisher "cfg.yaml") [9, 9]] }
    ∧ demo.ParseUriOpts (demoUri "k" "")
      = .ok { Prefix := "/tt", Key := "k", Instance := "",
              other := ("root", "secret") }
    ∧ PublishEtcd demo (demoCtx false [9, 9] (some [4])) (demoUri "k" "") [1, 2]
      = { err := none
          world := [9, 9]
          calls := [.ParseUriOpts (demoUri "k" ""),
            .validateRawConfig (some [4]) "",
            .ConnectEtcd { Username := "root", Password := "secret",
                           Timeout := 3, other := () },
            .Publish (.NewEtcdKeyDataPublisher 7 "/tt" "k" 3) [9, 9],
            .Close 7] } :=
  ⟨rfl,
    (overwrite_publish_is_passthrough demo
      (demoCtx false [9, 9] (some [4]))).1 "cfg.yaml" [1, 2] rfl,
    rfl,
    (overwrite_publish_is_passthrough demo
      (demoCtx false [9, 9] (some [4]))).2 (demoUri "k" "")
      { Prefix := "/tt", Key := "k", Instance := "",
        other := ("root", "secret") }
      7 [1, 2] [1, 2] (.NewEtcdKeyDataPublisher 7 "/tt" "k" 3)
      rfl rfl rfl rfl rfl⟩

/-- C3: when `Force` is false and the validator rejects `Config` for the
requested instance name, `PublishCluster` and `PublishEtcd` (whose locator
parses, which is where the instance name comes from) return the error of the
validator; the only calls are the validator call (after the locator parse in
`PublishEtcd`), so that no collector and no publisher is called, in the
overwrite flow and in the instance-scoped flow alike, and the world is
unchanged. -/
theorem validation_failure_makes_no_io
    (E : Collaborators Uri Config CConfig Client W UX EX)
    (publishCtx : PublishCtx Config) (err : GoError)
    (hF : publishCtx.Force = false) :
    (∀ (path inst : String) (w : W),
      E.validateRawConfig publishCtx.Config inst = some err →
      PublishCluster E publishCtx path inst w
        = { err := some err
            world := w
            calls := [.validateRawConfig publishCtx.Config inst] })
    ∧ (∀ (uri : Uri) (uriOpts : UriOpts UX) (w : W),
      E.ParseUriOpts uri = .ok uriOpts →
      E.validateRawConfig publishCtx.Config uriOpts.Instance = some err →
      PublishEtcd E publishCtx uri w
        = { err := some err
            world := w
            calls := [.ParseUriOpts uri,
              .validateRawConfig publishCtx.Config uriOpts.Instance] }) := by
  constructor
  · intro path inst w hv
    have hg : (publishCtxValidateConfig E publishCtx inst w).err = some err := by
      rw [gate_of_unforced E publishCtx inst w hF]; exact hv
    rw [PublishCluster_of_gate_error E publishCtx path inst w err hg]
    simp [gateCalls, hF]
  · intro uri uriOpts w hp hv
    have hg : (publishCtxValidateConfig E publishCtx uriOpts.Instance w).err
        = some err := by
      rw [gate_of_unforced E publishCtx uriOpts.Instance w hF]; exact hv
    rw [PublishEtcd_of_gate_error E publishCtx uri uriOpts w err hp hg]
    simp [gateCalls, hF]

/-- A run of C3 on the concrete collaborators: an unforced publish of an empty
instance configuration, which the validator rejects, for the instance `"a"`
of a file and of etcd. -/
theorem validation_failure_makes_no_io_witness :
    (demoCtx false [9, 9] (some [])).Force = false
    ∧ demo.validateRawConfig (some []) "a"
      = some (.new "invalid configuration")
    ∧ PublishCluster demo (demoCtx false [9, 9] (some [])) "cfg.yaml" "a" [1, 2]
      = { err := some (.new "invalid configuration")
          world := [1, 2]
          calls := [.validateRawConfig (some []) "a"] }
    ∧ PublishEtcd demo (demoCtx false [9, 9] (some [])) (demoUri "k" "a") [1, 2]
      = { err := some (.new "invalid configuration")
          world := [1, 2]
          calls := [.ParseUriOpts (demoUri "k" "a"),
            .validateRawConfig (some []) "a"] } :=
  ⟨rfl, rfl,
    (validation_failure_makes_no_io demo (demoCtx false [9, 9] (some []))
      (.new "invalid configuration") rfl).1 "cfg.yaml" "a" [1, 2] rfl,
    (validation_failure_makes_no_io demo (demoCtx false [9, 9] (some []))
      (.new "invalid configuration") rfl).2 (demoUri "k" "a")
      { Prefix := "/tt", Key := "k", Instance := "a",
        other := ("root", "secret") } [1, 2] rfl rfl⟩

/-- C4: with `Force` set, the gate calls no validator and returns no error,
whatever `Config` and the instance name are, and the publish stage is reached:
in the overwrite flow `PublishCluster` makes the single call `Publish` of the
source on the file publisher, and in the instance-scoped flow, when collect,
parse and merge succeed, its calls end with the `Publish` of the merged
document; in both flows the returned error and the final world are those of
that `Publish` call. Likewise for `PublishEtcd` when the locator parses and
the connect succeeds, where the final world is that of the `Publish` call
after the close. No call to the validator appears in any of these runs. -/
theorem force_bypasses_validation
    (E : Collaborators Uri Config CConfig Client W UX EX)
    (publishCtx : PublishCtx Config) (hF : publishCtx.Force = true) :
    (∀ (inst : String) (w : W),
      publishCtxValidateConfig E publishCtx inst w
        = { err := none, world := w, calls := [] })
    ∧ (∀ (path : String) (w : W),
      PublishCluster E publishCtx path "" w
        = { err := (E.Publish (.NewFileDataPublisher path) publishCtx.Src w).1
            world := (E.Publish (.NewFileDataPublisher path) publishCtx.Src w).2
            calls := [.Publish (.NewFileDataPublisher path) publishCtx.Src] })
    ∧ (∀ (path inst : String) (w w1 : W) (src : Bytes)
        (cconfig cconfig2 : CConfig),
      inst ≠ "" →
      E.Collect (.NewFileCollector path) w = (.ok src, w1) →
      E.MakeClusterConfig src = .ok cconfig →
      E.ReplaceInstanceConfig cconfig inst publishCtx.Config = .ok cconfig2 →
      PublishCluster E publishCtx path inst w
        = { err := (E.Publish (.NewFileDataPublisher path)
              (E.Serialize (E.RawConfig cconfig2)) w1).1
            world := (E.Publish (.NewFileDataPublisher path)
              (E.Serialize (E.RawConfig cconfig2)) w1).2
            calls := [.Collect (.NewFileCollector path),
              .MakeClusterConfig src,
              .ReplaceInstanceConfig cconfig inst publishCtx.Config,
              .Serialize (E.RawConfig cconfig2),
              .Publish (.NewFileDataPublisher path)
                (E.Serialize (E.RawConfig cconfig2))] })
    ∧ (∀ (uri : Uri) (uriOpts : UriOpts UX) (etcdcli : Client) (w w1 : W),
      E.ParseUriOpts uri = .ok uriOpts →
      E.ConnectEtcd (etcdOptsOf E publishCtx uriOpts) w = (.ok etcdcli, w1) →
      uriOpts.Instance = "" →
      PublishEtcd E publishCtx uri w
        = { err := (E.Publish (etcdPublisherOf etcdcli uriOpts.Prefix
              uriOpts.Key (etcdOptsOf E publishCtx uriOpts).Timeout)
              publishCtx.Src w1).1
            world := E.Close etcdcli
              (E.Publish (etcdPublisherOf etcdcli uriOpts.Prefix
                uriOpts.Key (etcdOptsOf E publishCtx uriOpts).Timeout)
                publishCtx.Src w1).2
            calls := [.ParseUriOpts uri,
              .ConnectEtcd (etcdOptsOf E publishCtx uriOpts),
              .Publish (etcdPublisherOf etcdcli uriOpts.Prefix uriOpts.Key
                (etcdOptsOf E publishCtx uriOpts).Timeout) publishCtx.Src,
              .Close etcdcli] })
    ∧ (∀ (uri : Uri) (uriOpts : UriOpts UX) (etcdcli : Client) (w w1 w2 : W)
        (src : Bytes) (cconfig cconfig2 : CConfig),
      E.ParseUriOpts uri = .ok uriOpts →
      E.ConnectEtcd (etcdOptsOf E publishCtx uriOpts) w = (.ok etcdcli, w1) →
      uriOpts.Instance ≠ "" →
      E.Collect (.NewEtcdAllCollector etcdcli uriOpts.Prefix
        (etcdOptsOf E publishCtx uriOpts).Timeout) w1 = (.ok src, w2) →
      E.MakeClusterConfig src = .ok cconfig →
      E.ReplaceInstanceConfig cconfig uriOpts.Instance publishCtx.Config
        = .ok cconfig2 →
      PublishEtcd E publishCtx uri w
        = { err := (E.Publish (etcdPublisherOf etcdcli uriOpts.Prefix
              uriOpts.Key (etcdOptsOf E publishCtx uriOpts).Timeout)
              (E.Serialize (E.RawConfig cconfig2)) w2).1
            world := E.Close etcdcli
              (E.Publish (etcdPublisherOf etcdcli uriOpts.Prefix
                uriOpts.Key (etcdOptsOf E publishCtx uriOpts).Timeout)
                (E.Serialize (E.RawConfig cconfig2)) w2).2
            calls := [.ParseUriOpts uri,
              .ConnectEtcd (etcdOptsOf E publishCtx uriOpts),
              .Collect (.NewEtcdAllCollector etcdcli uriOpts.Prefix
                (etcdOptsOf E publishCtx uriOpts).Timeout),
              .MakeClusterConfig src,
              .ReplaceInstanceConfig cconfig uriOpts.Instance
                publishCtx.Config,
              .Serialize (E.RawConfig cconfig2),
              .Publish (etcdPublisherOf etcdcli uriOpts.Prefix uriOpts.Key
                (etcdOptsOf E publishCtx uriOpts).Timeout)
                (E.Serialize (E.RawConfig cconfig2)),
              .Close etcdcli] }) := by
  have hg : ∀ (inst : String) (w : W),
      (publishCtxValidateConfig E publishCtx inst w).err = none := by
    intro inst w
    rw [gate_of_forced E publishCtx inst w hF]
  refine ⟨fun inst w => gate_of_forced E publishCtx inst w hF, ?_, ?_, ?_, ?_⟩
  · intro path w
    rw [PublishCluster_of_no_instance E publishCtx path w (hg _ _)]
    simp [gateCalls, hF]
  · intro path inst w w1 src cconfig cconfig2 hi hc hp hm
    rw [PublishCluster_of_instance E publishCtx path inst w hi (hg _ _),
      replaceInstanceConfig_of_merged E inst publishCtx.Config _ _ w w1 src
        cconfig cconfig2 hc hp hm]
    simp [gateCalls, hF]
  · intro uri uriOpts etcdcli w w1 hp hc hi
    rw [PublishEtcd_of_no_instance E publishCtx uri uriOpts etcdcli w w1 hp hi
      (hg _ _) hc]
    simp [gateCalls, hF]
  · intro uri uriOpts etcdcli w w1 w2 src cconfig cconfig2 hp hc hi hcol hpar
      hm
    rw [PublishEtcd_of_instance E publishCtx uri uriOpts etcdcli w w1 hp hi
      (hg _ _) hc,
      replaceInstanceConfig_of_merged E uriOpts.Instance publishCtx.Config _ _
        w1 w2 src cconfig cconfig2 hcol hpar hm]
    simp [gateCalls, hF]

/-- A run of C4 on the concrete collaborators: a forced publish of an absent
instance configuration, which the validator rejects, reaches the publisher in
the overwrite flow and in the instance-scoped flow of both functions, and the
store holds the published document afterwards. -/
theorem force_bypasses_validation_witness :
    (demoCtx true [9, 9] none).Force = true
    ∧ demo.validateRawConfig none "a" = some (.new "invalid configuration")
    ∧ publishCtxValidateConfig demo (demoCtx true [9, 9] none) "a"
        ([1, 2] : Bytes)
      = { err := none, world := [1, 2], calls := [] }
    ∧ PublishCluster demo (demoCtx true [9, 9] none) "cfg.yaml" "" [1, 2]
      = { err := none
          world := [9, 9]
          calls := [.Publish (.NewFileDataPublisher "cfg.yaml") [9, 9]] }
    ∧ PublishCluster demo (demoCtx true [9, 9] none) "cfg.yaml" "a" [1, 2]
      = { err := none
          world := [2]
          calls := [.Collect (.NewFileCollector "cfg.yaml"),
            .MakeClusterConfig [1, 2],
            .ReplaceInstanceConfig [1, 2] "a" none, .Serialize (some [2]),
            .Publish (.NewFileDataPublisher "cfg.yaml") [2]] }
    ∧ PublishEtcd demo (demoCtx true [9, 9] none) (demoUri "" "") [1, 2]
      = { err := none
          world := [9, 9]
          calls := [.ParseUriOpts (demoUri "" ""),
            .ConnectEtcd { Username := "root", Password := "secret",
                           Timeout := 3, other := () },
            .Publish (.NewEtcdAllDataPublisher 7 "/tt" 3) [9, 9], .Close 7] }
    ∧ PublishEtcd demo (demoCtx true [9, 9] none) (demoUri "" "a") [1, 2]
      = { err := none
          world := [2]
          calls := [.ParseUriOpts (demoUri "" "a"),
            .ConnectEtcd { Username := "root", Password := "secret",
                           Timeout := 3, other := () },
            .Collect (.NewEtcdAllCollector 7 "/tt" 3),
            .MakeClusterConfig [1, 2],
            .ReplaceInstanceConfig [1, 2] "a" none, .Serialize (some [2]),
            .Publish (.NewEtcdAllDataPublisher 7 "/tt" 3) [2], .Close 7] } :=
  ⟨rfl, rfl,
    (force_bypasses_validation demo (demoCtx true [9, 9] none) rfl).1 "a" [1, 2],
    (force_bypasses_validation demo (demoCtx true [9, 9] none) rfl).2.1
      "cfg.yaml" [1, 2],
    (force_bypasses_validation demo (demoCtx true [9, 9] none) rfl).2.2.1
      "cfg.yaml" "a" [1, 2] [1, 2] [1, 2] [1, 2] [2] (by decide) rfl rfl rfl,
    (force_bypasses_validation demo (demoCtx true [9, 9] none) rfl).2.2.2.1
      (demoUri "" "")
      { Prefix := "/tt", Key := "", Instance := "",
        other := ("root", "secret") } 7 [1, 2] [1, 2] rfl rfl rfl,
    (force_bypasses_validation demo (demoCtx true [9, 9] none) rfl).2.2.2.2
      (demoUri "" "a")
      { Prefix := "/tt", Key := "", Instance := "a",
        other := ("root", "secret") } 7 [1, 2] [1, 2] [1, 2] [1, 2] [1, 2] [2]
      rfl rfl (by decide) rfl rfl rfl⟩

/-- C8: when `ParseUriOpts` rejects the locator, `PublishEtcd` returns an
error that wraps the parse error as its cause and whose message is
`invalid URL`, the quoted locator, a colon and the message of the parse
error; the only call made is the locator parse, so that no connection is
attempted and nothing is validated, collected or published, and the world is
unchanged. -/
theorem malformed_locator_is_rejected
    (E : Collaborators Uri Config CConfig Client W UX EX)
    (publishCtx : PublishCtx Config) (uri : Uri) (w : W) (err : GoError)
    (hp : E.ParseUriOpts uri = .error err) :
    (PublishEtcd E publishCtx uri w).calls = [.ParseUriOpts uri]
    ∧ (PublishEtcd E publishCtx uri w).world = w
    ∧ ∃ e : GoError,
        (PublishEtcd E publishCtx uri w).err = some e
        ∧ e.Unwrap = some err
        ∧ e.Error
          = "invalid URL " ++ E.quote (E.uriString uri) ++ ": " ++ err.Error := by
  rw [PublishEtcd_of_parse_error E publishCtx uri w err hp]
  exact ⟨rfl, rfl, _, rfl, rfl, rfl⟩

/-- A run of C8 on the concrete collaborators, with a malformed locator. -/
theorem malformed_locator_is_rejected_witness :
    demo.ParseUriOpts { demoUri "k" "a" with wellFormed := false }
      = .error (.new "URL must contain the scheme and the host parts")
    ∧ (PublishEtcd demo (demoCtx false [9, 9] (some [4]))
        { demoUri "k" "a" with wellFormed := false } [1, 2]).calls
      = [.ParseUriOpts { demoUri "k" "a" with wellFormed := false }]
    ∧ (PublishEtcd demo (demoCtx false [9, 9] (some [4]))
        { demoUri "k" "a" with wellFormed := false } [1, 2]).err
      = some (.wrap
          "invalid URL \"/tt\": URL must contain the scheme and the host parts"
          (.new "URL must contain the scheme and the host parts")) :=
  ⟨rfl,
    (malformed_locator_is_rejected demo (demoCtx false [9, 9] (some [4]))
      { demoUri "k" "a" with wellFormed := false } [1, 2]
      (.new "URL must contain the scheme and the host parts") rfl).1,
    by decide⟩

/-- C5: the abort chain of the instance-scoped flow. In
`replaceInstanceConfig`, a collect failure returns an error after the single
call `Collect` (no parse, no merge, no publish); a parse failure returns an
error after `Collect` and `MakeClusterConfig` (no merge, no publish); a merge
failure returns an error after `Collect`, `MakeClusterConfig` and
`ReplaceInstanceConfig` (no publish). `PublishCluster` and `PublishEtcd`, for
a non-empty instance name, return the error of `replaceInstanceConfig` and
add to its calls only those of the gate, of the locator parse, of the connect
and of the close. -/
theorem failed_stage_prevents_publish
    (E : Collaborators Uri Config CConfig Client W UX EX) :
    (∀ (inst : String) (config : Option Config) (collector : Collector Client)
        (publisher : DataPublisher Client) (w w1 : W) (err : GoError),
      E.Collect collector w = (.error err, w1) →
      replaceInstanceConfig E inst config collector publisher w
        = { err := some (Errorf
              ("failed to get a cluster configuration to update an instance "
                ++ E.quote inst ++ ": ") err)
            world := w1
            calls := [.Collect collector] })
    ∧ (∀ (inst : String) (config : Option Config) (collector : Collector Client)
        (publisher : DataPublisher Client) (w w1 : W) (src : Bytes)
        (err : GoError),
      E.Collect collector w = (.ok src, w1) →
      E.MakeClusterConfig src = .error err →
      replaceInstanceConfig E inst config collector publisher w
        = { err := some
              (Errorf "failed to parse a target configuration: " err)
            world := w1
            calls := [.Collect collector, .MakeClusterConfig src] })
    ∧ (∀ (inst : String) (config : Option Config) (collector : Collector Client)
        (publisher : DataPublisher Client) (w w1 : W) (src : Bytes)
        (cconfig : CConfig) (err : GoError),
      E.Collect collector w = (.ok src, w1) →
      E.MakeClusterConfig src = .ok cconfig →
      E.ReplaceInstanceConfig cconfig inst config = .error err →
      replaceInstanceConfig E inst config collector publisher w
        = { err := some (Errorf
              ("failed to replace an instance " ++ E.quote inst
                ++ " configuration in a cluster configuration: ") err)
            world := w1
            calls := [.Collect collector, .MakeClusterConfig src,
              .ReplaceInstanceConfig cconfig inst config] })
    ∧ (∀ (publishCtx : PublishCtx Config) (path inst : String) (w : W),
      inst ≠ "" →
      (publishCtxValidateConfig E publishCtx inst w).err = none →
      (PublishCluster E publishCtx path inst w).err
        = (replaceInstanceConfig E inst publishCtx.Config
            (.NewFileCollector path) (.NewFileDataPublisher path) w).err
      ∧ (PublishCluster E publishCtx path inst w).calls
        = gateCalls publishCtx inst
          ++ (replaceInstanceConfig E inst publishCtx.Config
            (.NewFileCollector path) (.NewFileDataPublisher path) w).calls)
    ∧ (∀ (publishCtx : PublishCtx Config) (uri : Uri) (uriOpts : UriOpts UX)
        (etcdcli : Client) (w w1 : W),
      E.ParseUriOpts uri = .ok uriOpts →
      uriOpts.Instance ≠ "" →
      (publishCtxValidateConfig E publishCtx uriOpts.Instance w).err = none →
      E.ConnectEtcd (etcdOptsOf E publishCtx uriOpts) w = (.ok etcdcli, w1) →
      (PublishEtcd E publishCtx uri w).err
        = (replaceInstanceConfig E uriOpts.Instance publishCtx.Config
            (.NewEtcdAllCollector etcdcli uriOpts.Prefix
              (etcdOptsOf E publishCtx uriOpts).Timeout)
            (etcdPublisherOf etcdcli uriOpts.Prefix uriOpts.Key
              (etcdOptsOf E publishCtx uriOpts).Timeout) w1).err
      ∧ (PublishEtcd E publishCtx uri w).calls
        = .ParseUriOpts uri :: gateCalls publishCtx uriOpts.Instance
          ++ [.ConnectEtcd (etcdOptsOf E publishCtx uriOpts)]
          ++ (replaceInstanceConfig E uriOpts.Instance publishCtx.Config
            (.NewEtcdAllCollector etcdcli uriOpts.Prefix
              (etcdOptsOf E publishCtx uriOpts).Timeout)
            (etcdPublisherOf etcdcli uriOpts.Prefix uriOpts.Key
              (etcdOptsOf E publishCtx uriOpts).Timeout) w1).calls
          ++ [.Close etcdcli]) := by
  refine ⟨?_, ?_, ?_, ?_, ?_⟩
  · intro inst config collector publisher w w1 err hc
    exact replaceInstanceConfig_of_collect_error E inst config collector
      publisher w w1 err hc
  · intro inst config collector publisher w w1 src err hc hp
    exact replaceInstanceConfig_of_parse_error E inst config collector
      publisher w w1 src err hc hp
  · intro inst config collector publisher w w1 src cconfig err hc hp hm
    exact replaceInstanceConfig_of_merge_error E inst config collector
      publisher w w1 src cconfig err hc hp hm
  · intro publishCtx path inst w hi hv
    rw [PublishCluster_of_instance E publishCtx path inst w hi hv]
    exact ⟨rfl, rfl⟩
  · intro publishCtx uri uriOpts etcdcli w w1 hp hi hv hc
    rw [PublishEtcd_of_instance E publishCtx uri uriOpts etcdcli w w1 hp hi
      hv hc]
    exact ⟨rfl, rfl⟩

/-- Runs of C5 on the concrete collaborators: a collect failure (empty
store), a parse failure (a document that starts with `0`) and a merge failure
(the unknown instance `"b"`), in `replaceInstanceConfig`, in `PublishCluster`
and in `PublishEtcd`. -/
theorem failed_stage_prevents_publish_witness :
    replaceInstanceConfig demo "a" (some [4]) (.NewFileCollector "cfg.yaml")
        (.NewFileDataPublisher "cfg.yaml") []
      = { err := some (.wrap
            ("failed to get a cluster configuration to update an instance "
              ++ "\"a\": not found") (.new "not found"))
          world := []
          calls := [.Collect (.NewFileCollector "cfg.yaml")] }
    ∧ replaceInstanceConfig demo "a" (some [4]) (.NewFileCollector "cfg.yaml")
        (.NewFileDataPublisher "cfg.yaml") [0, 2]
      = { err := some (.wrap
            "failed to parse a target configuration: malformed document"
            (.new "malformed document"))
          world := [0, 2]
          calls := [.Collect (.NewFileCollector "cfg.yaml"),
            .MakeClusterConfig [0, 2]] }
    ∧ (replaceInstanceConfig demo "b" (some [4]) (.NewFileCollector "cfg.yaml")
        (.NewFileDataPublisher "cfg.yaml") [1, 2]).calls
      = [.Collect (.NewFileCollector "cfg.yaml"), .MakeClusterConfig [1, 2],
          .ReplaceInstanceConfig [1, 2] "b" (some [4])]
    ∧ (PublishCluster demo (demoCtx false [9, 9] (some [4])) "cfg.yaml" "b"
        [1, 2]).calls
      = [.validateRawConfig (some [4]) "b",
          .Collect (.NewFileCollector "cfg.yaml"), .MakeClusterConfig [1, 2],
          .ReplaceInstanceConfig [1, 2] "b" (some [4])]
    ∧ (PublishEtcd demo (demoCtx false [9, 9] (some [4])) (demoUri "k" "a")
        []).calls
      = [.ParseUriOpts (demoUri "k" "a"), .validateRawConfig (some [4]) "a",
          .ConnectEtcd { Username := "root", Password := "secret",
                         Timeout := 3, other := () },
          .Collect (.NewEtcdAllCollector 7 "/tt" 3), .Close 7] :=
  ⟨by
      have h := (failed_stage_prevents_publish demo).1 "a" (some [4])
        (.NewFileCollector "cfg.yaml") (.NewFileDataPublisher "cfg.yaml") []
        [] (.new "not found") rfl
      rw [h]; decide,
    by
      have h := (failed_stage_prevents_publish demo).2.1 "a" (some [4])
        (.NewFileCollector "cfg.yaml") (.NewFileDataPublisher "cfg.yaml")
        [0, 2] [0, 2] [0, 2] (.new "malformed document") rfl rfl
      rw [h]; decide,
    congrArg Outcome.calls
      ((failed_stage_prevents_publish demo).2.2.1 "b" (some [4])
        (.NewFileCollector "cfg.yaml") (.NewFileDataPublisher "cfg.yaml")
        [1, 2] [1, 2] [1, 2] [1, 2]
        (.new "cluster configuration has not an instance") rfl rfl rfl),
    ((failed_stage_prevents_publish demo).2.2.2.1
      (demoCtx false [9, 9] (some [4])) "cfg.yaml" "b" [1, 2] (by decide)
      rfl).2,
    ((failed_stage_prevents_publish demo).2.2.2.2
      (demoCtx false [9, 9] (some [4])) (demoUri "k" "a")
      { Prefix := "/tt", Key := "k", Instance := "a",
        other := ("root", "secret") } 7 [] [] rfl (by decide) rfl rfl).2⟩

/-- C6: a successful instance-scoped publish. For a non-empty instance name,
when the gate passes and collect, parse and merge succeed, the calls of
`PublishCluster` after the gate are, in this order and once each, `Collect`,
`MakeClusterConfig` of the collected document, `ReplaceInstanceConfig` of the
parsed document with the instance name and `publishCtx.Config`, `Serialize`
of the raw configuration of the merged document and `Publish` of that
serialization; the returned error and the final world are those of that
`Publish` call. The same holds of `PublishEtcd` between the connect and the
close. -/
theorem instance_publish_runs_in_order
    (E : Collaborators Uri Config CConfig Client W UX EX)
    (publishCtx : PublishCtx Config) :
    (∀ (path inst : String) (w w1 : W) (src : Bytes)
        (cconfig cconfig2 : CConfig),
      inst ≠ "" →
      (publishCtxValidateConfig E publishCtx inst w).err = none →
      E.Collect (.NewFileCollector path) w = (.ok src, w1) →
      E.MakeClusterConfig src = .ok cconfig →
      E.ReplaceInstanceConfig cconfig inst publishCtx.Config = .ok cconfig2 →
      PublishCluster E publishCtx path inst w
        = { err := (E.Publish (.NewFileDataPublisher path)
              (E.Serialize (E.RawConfig cconfig2)) w1).1
            world := (E.Publish (.NewFileDataPublisher path)
              (E.Serialize (E.RawConfig cconfig2)) w1).2
            calls := gateCalls publishCtx inst
              ++ [.Collect (.NewFileCollector path), .MakeClusterConfig src,
                .ReplaceInstanceConfig cconfig inst publishCtx.Config,
                .Serialize (E.RawConfig cconfig2),
                .Publish (.NewFileDataPublisher path)
                  (E.Serialize (E.RawConfig cconfig2))] })
    ∧ (∀ (uri : Uri) (uriOpts : UriOpts UX) (etcdcli : Client) (w w1 w2 : W)
        (src : Bytes) (cconfig cconfig2 : CConfig),
      E.ParseUriOpts uri = .ok uriOpts →
      uriOpts.Instance ≠ "" →
      (publishCtxValidateConfig E publishCtx uriOpts.Instance w).err = none →
      E.ConnectEtcd (etcdOptsOf E publishCtx uriOpts) w = (.ok etcdcli, w1) →
      E.Collect (.NewEtcdAllCollector etcdcli uriOpts.Prefix
        (etcdOptsOf E publishCtx uriOpts).Timeout) w1 = (.ok src, w2) →
      E.MakeClusterConfig src = .ok cconfig →
      E.ReplaceInstanceConfig cconfig uriOpts.Instance publishCtx.Config
        = .ok cconfig2 →
      PublishEtcd E publishCtx uri w
        = { err := (E.Publish (etcdPublisherOf etcdcli uriOpts.Prefix
              uriOpts.Key (etcdOptsOf E publishCtx uriOpts).Timeout)
              (E.Serialize (E.RawConfig cconfig2)) w2).1
            world := E.Close etcdcli
              (E.Publish (etcdPublisherOf etcdcli uriOpts.Prefix
                uriOpts.Key (etcdOptsOf E publishCtx uriOpts).Timeout)
                (E.Serialize (E.RawConfig cconfig2)) w2).2
            calls := .ParseUriOpts uri :: gateCalls publishCtx uriOpts.Instance
              ++ [.ConnectEtcd (etcdOptsOf E publishCtx uriOpts),
                .Collect (.NewEtcdAllCollector etcdcli uriOpts.Prefix
                  (etcdOptsOf E publishCtx uriOpts).Timeout),
                .MakeClusterConfig src,
                .ReplaceInstanceConfig cconfig uriOpts.Instance
                  publishCtx.Config,
                .Serialize (E.RawConfig cconfig2),
                .Publish (etcdPublisherOf etcdcli uriOpts.Prefix
                  uriOpts.Key (etcdOptsOf E publishCtx uriOpts).Timeout)
                  (E.Serialize (E.RawConfig cconfig2)),
                .Close etcdcli] }) := by
  constructor
  · intro path inst w w1 src cconfig cconfig2 hi hv hc hp hm
    rw [PublishCluster_of_instance E publishCtx path inst w hi hv,
      replaceInstanceConfig_of_merged E inst publishCtx.Config _ _ w w1 src
        cconfig cconfig2 hc hp hm]
  · intro uri uriOpts etcdcli w w1 w2 src cconfig cconfig2 hp hi hv hc hcol
      hpar hm
    rw [PublishEtcd_of_instance E publishCtx uri uriOpts etcdcli w w1 hp hi
      hv hc,
      replaceInstanceConfig_of_merged E uriOpts.Instance publishCtx.Config _ _
        w1 w2 src cconfig cconfig2 hcol hpar hm]
    simp

/-- A run of C6 on the concrete collaborators: the configuration `[4]` of the
instance `"a"` is merged into the stored document `[1, 2]`, and `[4, 2]` is
published. -/
theorem instance_publish_runs_in_order_witness :
    PublishCluster demo (demoCtx false [9, 9] (some [4])) "cfg.yaml" "a" [1, 2]
      = { err := none
          world := [4, 2]
          calls := [.validateRawConfig (some [4]) "a",
            .Collect (.NewFileCollector "cfg.yaml"), .MakeClusterConfig [1, 2],
            .ReplaceInstanceConfig [1, 2] "a" (some [4]),
            .Serialize (some [4, 2]),
            .Publish (.NewFileDataPublisher "cfg.yaml") [4, 2]] }
    ∧ PublishEtcd demo (demoCtx false [9, 9] (some [4])) (demoUri "" "a") [1, 2]
      = { err := none
          world := [4, 2]
          calls := [.ParseUriOpts (demoUri "" "a"),
            .validateRawConfig (some [4]) "a",
            .ConnectEtcd { Username := "root", Password := "secret",
                           Timeout := 3, other := () },
            .Collect (.NewEtcdAllCollector 7 "/tt" 3),
            .MakeClusterConfig [1, 2],
            .ReplaceInstanceConfig [1, 2] "a" (some [4]),
            .Serialize (some [4, 2]),
            .Publish (.NewEtcdAllDataPublisher 7 "/tt" 3) [4, 2],
            .Close 7] } :=
  ⟨(instance_publish_runs_in_order demo (demoCtx false [9, 9] (some [4]))).1
      "cfg.yaml" "a" [1, 2] [1, 2] [1, 2] [1, 2] [4, 2] (by decide) rfl rfl rfl
      rfl,
    (instance_publish_runs_in_order demo (demoCtx false [9, 9] (some [4]))).2
      (demoUri "" "a")
      { Prefix := "/tt", Key := "", Instance := "a",
        other := ("root", "secret") } 7 [1, 2] [1, 2] [1, 2] [1, 2] [1, 2]
      [4, 2] rfl (by decide) rfl rfl rfl rfl rfl⟩

/-- C2, as the code has it: in the instance-scoped flow of `PublishEtcd` the
final write of the merged document goes to the publisher selected by the key
alone, by the rule of the overwrite flow: the single-item publisher of the
prefix and key when the key is not empty, the whole-partition publisher of
the prefix when it is. The returned error and the final world (after the
close) are those of that `Publish` call. -/
theorem instance_publish_routes_by_key
    (E : Collaborators Uri Config CConfig Client W UX EX)
    (publishCtx : PublishCtx Config) (uri : Uri) (uriOpts : UriOpts UX)
    (etcdcli : Client) (w w1 w2 : W) (src : Bytes)
    (cconfig cconfig2 : CConfig) (publisher : DataPublisher Client)
    (hp : E.ParseUriOpts uri = .ok uriOpts)
    (hi : uriOpts.Instance ≠ "")
    (hv : (publishCtxValidateConfig E publishCtx uriOpts.Instance w).err = none)
    (hc : E.ConnectEtcd (etcdOptsOf E publishCtx uriOpts) w = (.ok etcdcli, w1))
    (hcol : E.Collect (.NewEtcdAllCollector etcdcli uriOpts.Prefix
      (etcdOptsOf E publishCtx uriOpts).Timeout) w1 = (.ok src, w2))
    (hpar : E.MakeClusterConfig src = .ok cconfig)
    (hm : E.ReplaceInstanceConfig cconfig uriOpts.Instance publishCtx.Config
      = .ok cconfig2)
    (hpub : publisher = (if uriOpts.Key = "" then
        DataPublisher.NewEtcdAllDataPublisher etcdcli uriOpts.Prefix
          (etcdOptsOf E publishCtx uriOpts).Timeout
      else
        DataPublisher.NewEtcdKeyDataPublisher etcdcli uriOpts.Prefix
          uriOpts.Key (etcdOptsOf E publishCtx uriOpts).Timeout)) :
    PublishEtcd E publishCtx uri w
      = { err := (E.Publish publisher
            (E.Serialize (E.RawConfig cconfig2)) w2).1
          world := E.Close etcdcli
            (E.Publish publisher (E.Serialize (E.RawConfig cconfig2)) w2).2
          calls := .ParseUriOpts uri :: gateCalls publishCtx uriOpts.Instance
            ++ [.ConnectEtcd (etcdOptsOf E publishCtx uriOpts),
              .Collect (.NewEtcdAllCollector etcdcli uriOpts.Prefix
                (etcdOptsOf E publishCtx uriOpts).Timeout),
              .MakeClusterConfig src,
              .ReplaceInstanceConfig cconfig uriOpts.Instance
                publishCtx.Config,
              .Serialize (E.RawConfig cconfig2),
              .Publish publisher (E.Serialize (E.RawConfig cconfig2)),
              .Close etcdcli] } := by
  rw [PublishEtcd_of_instance E publishCtx uri uriOpts etcdcli w w1 hp hi hv hc,
    replaceInstanceConfig_of_merged E uriOpts.Instance publishCtx.Config _ _
      w1 w2 src cconfig cconfig2 hcol hpar hm, hpub]
  simp [etcdPublisherOf]

/-- A run of the amended C2 on the concrete collaborators, with the key `"k"`
and the instance `"a"`. -/
theorem instance_publish_routes_by_key_witness :
    PublishEtcd demo (demoCtx true [9, 9] (some [5])) (demoUri "k" "a") [1, 2]
      = { err := none
          world := [5, 2]
          calls := [.ParseUriOpts (demoUri "k" "a"),
            .ConnectEtcd { Username := "root", Password := "secret",
                           Timeout := 3, other := () },
            .Collect (.NewEtcdAllCollector 7 "/tt" 3),
            .MakeClusterConfig [1, 2],
            .ReplaceInstanceConfig [1, 2] "a" (some [5]),
            .Serialize (some [5, 2]),
            .Publish (.NewEtcdKeyDataPublisher 7 "/tt" "k" 3) [5, 2],
            .Close 7] } :=
  instance_publish_routes_by_key demo (demoCtx true [9, 9] (some [5]))
    (demoUri "k" "a")
    { Prefix := "/tt", Key := "k", Instance := "a",
      other := ("root", "secret") } 7 [1, 2] [1, 2] [1, 2] [1, 2] [1, 2] [5, 2]
    (.NewEtcdKeyDataPublisher 7 "/tt" "k" 3)
    rfl (by decide) rfl rfl rfl rfl rfl rfl

/-- C2, as the claim states it, fails: for the locator with the prefix
`"/tt"`, the key `"k"` and the instance `"a"`, `PublishEtcd` writes the merged
document `[4, 2]` through the single-item publisher of the key `"k"`; no call
goes to the whole-partition publisher. -/
theorem instance_publish_with_key_writes_single_item :
    (demoUri "k" "a").key ≠ "" ∧ (demoUri "k" "a").name ≠ ""
    ∧ PublishEtcd demo (demoCtx false [9, 9] (some [4])) (demoUri "k" "a") [1, 2]
      = { err := none
          world := [4, 2]
          calls := [.ParseUriOpts (demoUri "k" "a"),
            .validateRawConfig (some [4]) "a",
            .ConnectEtcd { Username := "root", Password := "secret",
                           Timeout := 3, other := () },
            .Collect (.NewEtcdAllCollector 7 "/tt" 3),
            .MakeClusterConfig [1, 2],
            .ReplaceInstanceConfig [1, 2] "a" (some [4]),
            .Serialize (some [4, 2]),
            .Publish (.NewEtcdKeyDataPublisher 7 "/tt" "k" 3) [4, 2],
            .Close 7] }
    ∧ ∀ (etcdcli : Nat) (pfx : String) (timeout : Int) (data : Bytes),
        Event.Publish (.NewEtcdAllDataPublisher etcdcli pfx timeout) data
          ∉ (PublishEtcd demo (demoCtx false [9, 9] (some [4]))
              (demoUri "k" "a") [1, 2]).calls := by
  refine ⟨by decide, by decide, rfl, ?_⟩
  intro etcdcli pfx timeout data
  have h : (PublishEtcd demo (demoCtx false [9, 9] (some [4]))
      (demoUri "k" "a") [1, 2]).calls
      = [.ParseUriOpts (demoUri "k" "a"),
          .validateRawConfig (some [4]) "a",
          .ConnectEtcd { Username := "root", Password := "secret",
                         Timeout := 3, other := () },
          .Collect (.NewEtcdAllCollector 7 "/tt" 3),
          .MakeClusterConfig [1, 2],
          .ReplaceInstanceConfig [1, 2] "a" (some [4]),
          .Serialize (some [4, 2]),
          .Publish (.NewEtcdKeyDataPublisher 7 "/tt" "k" 3) [4, 2],
          .Close 7] := rfl
  rw [h]
  simp

/-- C10, as the code has it: no stage swallows an error, and the error of the
collaborator is always preserved, but only four stages wrap it. A connect,
collect, parse or merge failure returns `fmt.Errorf` of a stage message and
the error of the collaborator, which is its cause; the message carries the
quoted instance name for collect and merge. A validation failure and a
publish failure (of the overwrite flow and of the instance-scoped flow)
return the error of the collaborator itself, unchanged. For a non-empty
instance name the entry points return the error of `replaceInstanceConfig`. -/
theorem stage_errors_are_preserved
    (E : Collaborators Uri Config CConfig Client W UX EX) :
    (∀ (text : String) (err : GoError),
      (Errorf text err).Unwrap = some err
      ∧ (Errorf text err).Error = text ++ err.Error)
    ∧ (∀ (publishCtx : PublishCtx Config) (uri : Uri) (uriOpts : UriOpts UX)
        (w w1 : W) (err : GoError),
      E.ParseUriOpts uri = .ok uriOpts →
      (publishCtxValidateConfig E publishCtx uriOpts.Instance w).err = none →
      E.ConnectEtcd (etcdOptsOf E publishCtx uriOpts) w = (.error err, w1) →
      (PublishEtcd E publishCtx uri w).err
        = some (Errorf "failed to connect to etcd: " err))
    ∧ (∀ (inst : String) (config : Option Config) (collector : Collector Client)
        (publisher : DataPublisher Client) (w w1 : W) (err : GoError),
      E.Collect collector w = (.error err, w1) →
      (replaceInstanceConfig E inst config collector publisher w).err
        = some (Errorf
            ("failed to get a cluster configuration to update an instance "
              ++ E.quote inst ++ ": ") err))
    ∧ (∀ (inst : String) (config : Option Config) (collector : Collector Client)
        (publisher : DataPublisher Client) (w w1 : W) (src : Bytes)
        (err : GoError),
      E.Collect collector w = (.ok src, w1) →
      E.MakeClusterConfig src = .error err →
      (replaceInstanceConfig E inst config collector publisher w).err
        = some (Errorf "failed to parse a target configuration: " err))
    ∧ (∀ (inst : String) (config : Option Config) (collector : Collector Client)
        (publisher : DataPublisher Client) (w w1 : W) (src : Bytes)
        (cconfig : CConfig) (err : GoError),
      E.Collect collector w = (.ok src, w1) →
      E.MakeClusterConfig src = .ok cconfig →
      E.ReplaceInstanceConfig cconfig inst config = .error err →
      (replaceInstanceConfig E inst config collector publisher w).err
        = some (Errorf
            ("failed to replace an instance " ++ E.quote inst
              ++ " configuration in a cluster configuration: ") err))
    ∧ (∀ (inst : String) (config : Option Config) (collector : Collector Client)
        (publisher : DataPublisher Client) (w w1 : W) (src : Bytes)
        (cconfig cconfig2 : CConfig),
      E.Collect collector w = (.ok src, w1) →
      E.MakeClusterConfig src = .ok cconfig →
      E.ReplaceInstanceConfig cconfig inst config = .ok cconfig2 →
      (replaceInstanceConfig E inst config collector publisher w).err
        = (E.Publish publisher (E.Serialize (E.RawConfig cconfig2)) w1).1)
    ∧ (∀ (publishCtx : PublishCtx Config) (path inst : String) (w : W)
        (err : GoError),
      publishCtx.Force = false →
      E.validateRawConfig publishCtx.Config inst = some err →
      (PublishCluster E publishCtx path inst w).err = some err)
    ∧ (∀ (publishCtx : PublishCtx Config) (uri : Uri) (uriOpts : UriOpts UX)
        (w : W) (err : GoError),
      E.ParseUriOpts uri = .ok uriOpts →
      publishCtx.Force = false →
      E.validateRawConfig publishCtx.Config uriOpts.Instance = some err →
      (PublishEtcd E publishCtx uri w).err = some err)
    ∧ (∀ (publishCtx : PublishCtx Config) (path : String) (w : W),
      (publishCtxValidateConfig E publishCtx "" w).err = none →
      (PublishCluster E publishCtx path "" w).err
        = (E.Publish (.NewFileDataPublisher path) publishCtx.Src w).1)
    ∧ (∀ (publishCtx : PublishCtx Config) (uri : Uri) (uriOpts : UriOpts UX)
        (etcdcli : Client) (w w1 : W),
      E.ParseUriOpts uri = .ok uriOpts →
      uriOpts.Instance = "" →
      (publishCtxValidateConfig E publishCtx "" w).err = none →
      E.ConnectEtcd (etcdOptsOf E publishCtx uriOpts) w = (.ok etcdcli, w1) →
      (PublishEtcd E publishCtx uri w).err
        = (E.Publish (etcdPublisherOf etcdcli uriOpts.Prefix uriOpts.Key
            (etcdOptsOf E publishCtx uriOpts).Timeout) publishCtx.Src w1).1)
    ∧ (∀ (publishCtx : PublishCtx Config) (path inst : String) (w : W),
      inst ≠ "" →
      (publishCtxValidateConfig E publishCtx inst w).err = none →
      (PublishCluster E publishCtx path inst w).err
        = (replaceInstanceConfig E inst publishCtx.Config
            (.NewFileCollector path) (.NewFileDataPublisher path) w).err)
    ∧ (∀ (publishCtx : PublishCtx Config) (uri : Uri) (uriOpts : UriOpts UX)
        (etcdcli : Client) (w w1 : W),
      E.ParseUriOpts uri = .ok uriOpts →
      uriOpts.Instance ≠ "" →
      (publishCtxValidateConfig E publishCtx uriOpts.Instance w).err = none →
      E.ConnectEtcd (etcdOptsOf E publishCtx uriOpts) w = (.ok etcdcli, w1) →
      (PublishEtcd E publishCtx uri w).err
        = (replaceInstanceConfig E uriOpts.Instance publishCtx.Config
            (.NewEtcdAllCollector etcdcli uriOpts.Prefix
              (etcdOptsOf E publishCtx uriOpts).Timeout)
            (etcdPublisherOf etcdcli uriOpts.Prefix uriOpts.Key
              (etcdOptsOf E publishCtx uriOpts).Timeout) w1).err) := by
  refine ⟨fun text err => ⟨rfl, rfl⟩, ?_, ?_, ?_, ?_, ?_, ?_, ?_, ?_, ?_, ?_, ?_⟩
  · intro publishCtx uri uriOpts w w1 err hp hv hc
    rw [PublishEtcd_of_connect_error E publishCtx uri uriOpts w w1 err hp hv hc]
  · intro inst config collector publisher w w1 err hc
    rw [replaceInstanceConfig_of_collect_error E inst config collector
      publisher w w1 err hc]
  · intro inst config collector publisher w w1 src err hc hp
    rw [replaceInstanceConfig_of_parse_error E inst config collector
      publisher w w1 src err hc hp]
  · intro inst config collector publisher w w1 src cconfig err hc hp hm
    rw [replaceInstanceConfig_of_merge_error E inst config collector
      publisher w w1 src cconfig err hc hp hm]
  · intro inst config collector publisher w w1 src cconfig cconfig2 hc hp hm
    rw [replaceInstanceConfig_of_merged E inst config collector
      publisher w w1 src cconfig cconfig2 hc hp hm]
  · intro publishCtx path inst w err hF hval
    have hg : (publishCtxValidateConfig E publishCtx inst w).err = some err := by
      rw [gate_of_unforced E publishCtx inst w hF]; exact hval
    rw [PublishCluster_of_gate_error E publishCtx path inst w err hg]
  · intro publishCtx uri uriOpts w err hp hF hval
    have hg : (publishCtxValidateConfig E publishCtx uriOpts.Instance w).err
        = some err := by
      rw [gate_of_unforced E publishCtx uriOpts.Instance w hF]; exact hval
    rw [PublishEtcd_of_gate_error E publishCtx uri uriOpts w err hp hg]
  · intro publishCtx path w hv
    rw [PublishCluster_of_no_instance E publishCtx path w hv]
  · intro publishCtx uri uriOpts etcdcli w w1 hp hi hv hc
    have hv2 : (publishCtxValidateConfig E publishCtx uriOpts.Instance w).err
        = none := by rw [hi]; exact hv
    rw [PublishEtcd_of_no_instance E publishCtx uri uriOpts etcdcli w w1 hp hi
      hv2 hc]
  · intro publishCtx path inst w hi hv
    rw [PublishCluster_of_instance E publishCtx path inst w hi hv]
  · intro publishCtx uri uriOpts etcdcli w w1 hp hi hv hc
    rw [PublishEtcd_of_instance E publishCtx uri uriOpts etcdcli w w1 hp hi
      hv hc]

/-- Runs of the amended C10 on the concrete collaborators, one for each
stage: connect (a locator and a context without credentials), collect (an
empty store), parse (a document that starts with `0`), merge (the unknown
instance `"b"`), publish of the instance-scoped flow (an empty merged
document), validate (an empty configuration), publish of the overwrite flow
(an empty source). -/
theorem stage_errors_are_preserved_witness :
    (PublishEtcd demo
        { demoCtx true [9, 9] none with Username := "", Password := "" }
        { demoUri "k" "" with user := "", password := "" } [1, 2]).err
      = some (Errorf "failed to connect to etcd: "
          (.new "authentication failed"))
    ∧ (replaceInstanceConfig demo "a" (some [4]) (.NewFileCollector "cfg.yaml")
        (.NewFileDataPublisher "cfg.yaml") []).err
      = some (Errorf
          ("failed to get a cluster configuration to update an instance "
            ++ "\"a\"" ++ ": ") (.new "not found"))
    ∧ (replaceInstanceConfig demo "a" (some [4]) (.NewFileCollector "cfg.yaml")
        (.NewFileDataPublisher "cfg.yaml") [0, 2]).err
      = some (Errorf "failed to parse a target configuration: "
          (.new "malformed document"))
    ∧ (replaceInstanceConfig demo "b" (some [4]) (.NewFileCollector "cfg.yaml")
        (.NewFileDataPublisher "cfg.yaml") [1, 2]).err
      = some (Errorf
          ("failed to replace an instance " ++ "\"b\""
            ++ " configuration in a cluster configuration: ")
          (.new "cluster configuration has not an instance"))
    ∧ (replaceInstanceConfig demo "a" none (.NewFileCollector "cfg.yaml")
        (.NewFileDataPublisher "cfg.yaml") [1]).err
      = some (.new "nothing to publish")
    ∧ (PublishCluster demo (demoCtx false [9, 9] (some [])) "cfg.yaml" "a"
        [1, 2]).err
      = some (.new "invalid configuration")
    ∧ (PublishEtcd demo (demoCtx false [9, 9] (some [])) (demoUri "k" "a")
        [1, 2]).err
      = some (.new "invalid configuration")
    ∧ (PublishCluster demo (demoCtx true [] none) "cfg.yaml" "" [1, 2]).err
      = some (.new "nothing to publish")
    ∧ (PublishEtcd demo (demoCtx true [] none) (demoUri "k" "") [1, 2]).err
      = some (.new "nothing to publish")
    ∧ (PublishCluster demo (demoCtx true [9, 9] (some [4])) "cfg.yaml" "b"
        [1, 2]).err
      = (replaceInstanceConfig demo "b" (some [4]) (.NewFileCollector "cfg.yaml")
          (.NewFileDataPublisher "cfg.yaml") [1, 2]).err
    ∧ (PublishEtcd demo (demoCtx true [9, 9] (some [4])) (demoUri "k" "b")
        [1, 2]).err
      = (replaceInstanceConfig demo "b" (some [4])
          (.NewEtcdAllCollector 7 "/tt" 3)
          (.NewEtcdKeyDataPublisher 7 "/tt" "k" 3) [1, 2]).err :=
  ⟨(stage_errors_are_preserved demo).2.1
      { demoCtx true [9, 9] none with Username := "", Password := "" }
      { demoUri "k" "" with user := "", password := "" }
      { Prefix := "/tt", Key := "k", Instance := "", other := ("", "") }
      [1, 2] [1, 2] (.new "authentication failed") rfl rfl rfl,
    (stage_errors_are_preserved demo).2.2.1 "a" (some [4])
      (.NewFileCollector "cfg.yaml") (.NewFileDataPublisher "cfg.yaml") [] []
      (.new "not found") rfl,
    (stage_errors_are_preserved demo).2.2.2.1 "a" (some [4])
      (.NewFileCollector "cfg.yaml") (.NewFileDataPublisher "cfg.yaml") [0, 2]
      [0, 2] [0, 2] (.new "malformed document") rfl rfl,
    (stage_errors_are_preserved demo).2.2.2.2.1 "b" (some [4])
      (.NewFileCollector "cfg.yaml") (.NewFileDataPublisher "cfg.yaml") [1, 2]
      [1, 2] [1, 2] [1, 2] (.new "cluster configuration has not an instance")
      rfl rfl rfl,
    (stage_errors_are_preserved demo).2.2.2.2.2.1 "a" none
      (.NewFileCollector "cfg.yaml") (.NewFileDataPublisher "cfg.yaml") [1]
      [1] [1] [1] [] rfl rfl rfl,
    (stage_errors_are_preserved demo).2.2.2.2.2.2.1
      (demoCtx false [9, 9] (some [])) "cfg.yaml" "a" [1, 2]
      (.new "invalid configuration") rfl rfl,
    (stage_errors_are_preserved demo).2.2.2.2.2.2.2.1
      (demoCtx false [9, 9] (some [])) (demoUri "k" "a")
      { Prefix := "/tt", Key := "k", Instance := "a",
        other := ("root", "secret") } [1, 2]
      (.new "invalid configuration") rfl rfl rfl,
    (stage_errors_are_preserved demo).2.2.2.2.2.2.2.2.1
      (demoCtx true [] none) "cfg.yaml" [1, 2] rfl,
    (stage_errors_are_preserved demo).2.2.2.2.2.2.2.2.2.1
      (demoCtx true [] none) (demoUri "k" "")
      { Prefix := "/tt", Key := "k", Instance := "",
        other := ("root", "secret") } 7 [1, 2] [1, 2] rfl rfl rfl rfl,
    (stage_errors_are_preserved demo).2.2.2.2.2.2.2.2.2.2.1
      (demoCtx true [9, 9] (some [4])) "cfg.yaml" "b" [1, 2] (by decide) rfl,
    (stage_errors_are_preserved demo).2.2.2.2.2.2.2.2.2.2.2
      (demoCtx true [9, 9] (some [4])) (demoUri "k" "b")
      { Prefix := "/tt", Key := "k", Instance := "b",
        other := ("root", "secret") } 7 [1, 2] [1, 2] rfl (by decide) rfl rfl⟩

/-- C10, as the claim states it, fails for the validate stage and for the
publish stage: the error returned by `PublishCluster` is the error of the
validator, respectively of the publisher, itself. It has no cause and no
stage message, and it is not `fmt.Errorf` of any text and the error of the
collaborator. -/
theorem validate_and_publish_errors_are_not_wrapped :
    (demo.validateRawConfig (some []) "a"
        = some (.new "invalid configuration")
      ∧ (PublishCluster demo (demoCtx false [9, 9] (some [])) "cfg.yaml" "a"
          [1, 2]).err
        = some (.new "invalid configuration")
      ∧ (GoError.new "invalid configuration").Unwrap = none
      ∧ ¬ ∃ text : String,
          (PublishCluster demo (demoCtx false [9, 9] (some [])) "cfg.yaml" "a"
            [1, 2]).err
          = some (Errorf text (.new "invalid configuration")))
    ∧ (demo.Publish (.NewFileDataPublisher "cfg.yaml") [] [1, 2]
        = (some (.new "nothing to publish"), [1, 2])
      ∧ (PublishCluster demo (demoCtx true [] none) "cfg.yaml" "" [1, 2]).err
        = some (.new "nothing to publish")
      ∧ (GoError.new "nothing to publish").Unwrap = none
      ∧ ¬ ∃ text : String,
          (PublishCluster demo (demoCtx true [] none) "cfg.yaml" "" [1, 2]).err
          = some (Errorf text (.new "nothing to publish"))) := by
  refine ⟨⟨rfl, rfl, rfl, ?_⟩, ⟨rfl, rfl, rfl, ?_⟩⟩
  · rintro ⟨text, h⟩
    have h2 : (PublishCluster demo (demoCtx false [9, 9] (some [])) "cfg.yaml"
        "a" [1, 2]).err = some (.new "invalid configuration") := rfl
    rw [h2] at h
    simp [Errorf] at h
  · rintro ⟨text, h⟩
    have h2 : (PublishCluster demo (demoCtx true [] none) "cfg.yaml" ""
        [1, 2]).err = some (.new "nothing to publish") := rfl
    rw [h2] at h
    simp [Errorf] at h

end Claims

end Publish
